import Mathlib

/-!
Shallow embedding of the `ltv-calculator` library (src/libs/index.ts and the
standalone function module). JavaScript numbers are modelled by `ℚ`; the
results `Infinity` / `-Infinity` / `NaN` that JavaScript division can
produce are modelled by the type `JSVal`, with `jsDiv` giving the semantics
of the `/` operator on a zero denominator. Optional record fields are
modelled by `Option ℚ`, with the source's `= 0` destructuring defaults
rendered as `Option.getD _ 0`. The stable `Array.prototype.sort` with
comparator `(a, b) => a.month - b.month` is modelled by
`List.insertionSort` on the non-strict key order, which is a stable sort.
-/

namespace LTVCalc

/-- Model of a JavaScript number as produced by a division: either a finite
value or one of the IEEE special values that `x / 0` yields. -/
inductive JSVal where
  | num (val : ℚ)
  | posInf
  | negInf
  | nan
deriving DecidableEq, Repr

/-- Semantics of JavaScript `/` on rational operands: on a zero denominator
it yields `Infinity`, `-Infinity` or `NaN` according to the sign of the
numerator, otherwise the exact quotient. -/
def jsDiv (a b : ℚ) : JSVal :=
  if b = 0 then
    if 0 < a then JSVal.posInf else if a < 0 then JSVal.negInf else JSVal.nan
  else JSVal.num (a / b)

/-- `export type NumberType = 'percentage' | 'number'` -/
inductive NumberType where
  | percentage
  | number
deriving DecidableEq, Repr

/-- `export type SubscriptionInterval = 'month' | 'year' | 'week' | 'day'`.
The extra constructor `other` models any further string tag a plain
JavaScript caller could pass, which the `switch` in `calculateMRR` sends to
its `default` branch. -/
inductive SubscriptionInterval where
  | month
  | year
  | week
  | day
  | other (tag : String)
deriving DecidableEq, Repr

/-- `interface Subscription { amount: number; interval: SubscriptionInterval }` -/
structure Subscription where
  amount : ℚ
  interval : SubscriptionInterval
deriving DecidableEq, Repr

/-- `interface CustomerChurnInput { startCustomers: number; churnedCustomers: number }` -/
structure CustomerChurnInput where
  startCustomers : ℚ
  churnedCustomers : ℚ
deriving DecidableEq, Repr

/-- `interface RevenueChurnInput { startMRR; churnedMRR; contractionMRR? }` -/
structure RevenueChurnInput where
  startMRR : ℚ
  churnedMRR : ℚ
  contractionMRR : Option ℚ
deriving DecidableEq, Repr

/-- `interface NRRInput { startMRR; newMRR?; expansionMRR?; contractionMRR?; churnedMRR }` -/
structure NRRInput where
  startMRR : ℚ
  newMRR : Option ℚ
  expansionMRR : Option ℚ
  contractionMRR : Option ℚ
  churnedMRR : ℚ
deriving DecidableEq, Repr

/-- `interface CohortDataPoint { month: number; customers: number }` -/
structure CohortDataPoint where
  month : ℚ
  customers : ℚ
deriving DecidableEq, Repr

instance : Inhabited CohortDataPoint := ⟨⟨0, 0⟩⟩

/-- `const MONTHS_PER_YEAR = 12` -/
def MONTHS_PER_YEAR : ℚ := 12

/-- `const WEEKS_PER_YEAR = 52` -/
def WEEKS_PER_YEAR : ℚ := 52

/-- `const DAYS_PER_YEAR = 365` -/
def DAYS_PER_YEAR : ℚ := 365

/-- `calculateARPU(sales, users) { return sales / users }` -/
def calculateARPU (sales users : ℚ) : JSVal :=
  jsDiv sales users

/-- `calculateAverageDuration(churnRate, type = 'percentage')`:
`type === 'percentage' ? 1 / (churnRate / 100) : 1 / churnRate`.
The optional second argument is modelled by `Option NumberType`, with
`none` standing for an omitted argument, which defaults to `percentage`. -/
def calculateAverageDuration (churnRate : ℚ) (type : Option NumberType) : JSVal :=
  match type.getD NumberType.percentage with
  | NumberType.percentage => jsDiv 1 (churnRate / 100)
  | NumberType.number => jsDiv 1 churnRate

/-- `calculateMRR(subscriptions)`: `reduce` over the array, adding the
per-interval monthly equivalent selected by the `switch` on `interval`. -/
def calculateMRR (subscriptions : List Subscription) : ℚ :=
  subscriptions.foldl
    (fun total sub =>
      match sub.interval with
      | SubscriptionInterval.month => total + sub.amount
      | SubscriptionInterval.year => total + sub.amount / MONTHS_PER_YEAR
      | SubscriptionInterval.week => total + sub.amount * WEEKS_PER_YEAR / MONTHS_PER_YEAR
      | SubscriptionInterval.day => total + sub.amount * DAYS_PER_YEAR / MONTHS_PER_YEAR
      | SubscriptionInterval.other _ => total)
    0

/-- `calculateARR(subscriptions) { return calculateMRR(subscriptions) * MONTHS_PER_YEAR }` -/
def calculateARR (subscriptions : List Subscription) : ℚ :=
  calculateMRR subscriptions * MONTHS_PER_YEAR

/-- `calculateCustomerChurnRate(input)`: `0` when `startCustomers === 0`,
otherwise `(churnedCustomers / startCustomers) * 100`. -/
def calculateCustomerChurnRate (input : CustomerChurnInput) : ℚ :=
  if input.startCustomers = 0 then 0
  else input.churnedCustomers / input.startCustomers * 100

/-- `calculateRevenueChurnRate(input)`: `contractionMRR = 0` default, `0`
when `startMRR === 0`, otherwise `((churnedMRR + contractionMRR) / startMRR) * 100`. -/
def calculateRevenueChurnRate (input : RevenueChurnInput) : ℚ :=
  let contractionMRR := input.contractionMRR.getD 0
  if input.startMRR = 0 then 0
  else (input.churnedMRR + contractionMRR) / input.startMRR * 100

/-- `calculateNRR(input)`: defaults `expansionMRR = 0`, `contractionMRR = 0`;
`0` when `startMRR === 0`, otherwise
`((startMRR + expansionMRR - contractionMRR - churnedMRR) / startMRR) * 100`. -/
def calculateNRR (input : NRRInput) : ℚ :=
  let expansionMRR := input.expansionMRR.getD 0
  let contractionMRR := input.contractionMRR.getD 0
  if input.startMRR = 0 then 0
  else
    let endMRR := input.startMRR + expansionMRR - contractionMRR - input.churnedMRR
    endMRR / input.startMRR * 100

/-- `calculateGRR(input)`: defaults `contractionMRR = 0`; `0` when
`startMRR === 0`, otherwise `((startMRR - contractionMRR - churnedMRR) / startMRR) * 100`. -/
def calculateGRR (input : NRRInput) : ℚ :=
  let contractionMRR := input.contractionMRR.getD 0
  if input.startMRR = 0 then 0
  else
    let retainedMRR := input.startMRR - contractionMRR - input.churnedMRR
    retainedMRR / input.startMRR * 100

/-- Key order used by the sort comparator `(a, b) => a.month - b.month`. -/
def cohortLE (a b : CohortDataPoint) : Prop :=
  a.month ≤ b.month

instance : DecidableRel cohortLE :=
  fun a b => inferInstanceAs (Decidable (a.month ≤ b.month))

instance : IsTotal CohortDataPoint cohortLE :=
  ⟨fun a b => le_total a.month b.month⟩

instance : IsTrans CohortDataPoint cohortLE :=
  ⟨fun _ _ _ hab hbc => le_trans hab hbc⟩

/-- Strict version of `cohortLE`, used to compare sorted cohort lists. -/
def cohortLT (a b : CohortDataPoint) : Prop :=
  a.month < b.month

instance : IsAntisymm CohortDataPoint cohortLT :=
  ⟨fun _ _ hab hba => absurd hba (not_lt.mpr (le_of_lt hab))⟩

/-- `calculateCohortRetention(cohorts)`: `[]` on empty input, otherwise sort
a copy of the array stably by `month`, take the first sorted element's
`customers` as the base, return all zeros when the base is `0`, and
otherwise map each sorted cohort to `(customers / base) * 100`. -/
def calculateCohortRetention (cohorts : List CohortDataPoint) : List ℚ :=
  if cohorts.length = 0 then []
  else
    let sortedCohorts := List.insertionSort cohortLE cohorts
    let baseCustomers := sortedCohorts.headI.customers
    if baseCustomers = 0 then sortedCohorts.map fun _ => 0
    else sortedCohorts.map fun cohort => cohort.customers / baseCustomers * 100

/-- `calculateHistoricalLTV(customerRevenues)`: `0` on empty input,
otherwise `reduce((sum, revenue) => sum + revenue, 0)` divided by the length. -/
def calculateHistoricalLTV (customerRevenues : List ℚ) : ℚ :=
  if customerRevenues.length = 0 then 0
  else
    let total := customerRevenues.foldl (fun sum revenue => sum + revenue) 0
    total / customerRevenues.length

/-- Monthly-equivalent contribution of one subscription as the specification
states it: `amount` for month, `amount / 12` for year, `amount * 52 / 12`
for week, `amount * 365 / 12` for day, and `0` for any other tag. -/
def specMonthlyContribution (sub : Subscription) : ℚ :=
  match sub.interval with
  | SubscriptionInterval.month => sub.amount
  | SubscriptionInterval.year => sub.amount / 12
  | SubscriptionInterval.week => sub.amount * 52 / 12
  | SubscriptionInterval.day => sub.amount * 365 / 12
  | SubscriptionInterval.other _ => 0

end LTVCalc
namespace LTVCalc

/-- Generic accumulation lemma: a left fold that adds `f x` at each step
computes the initial value plus the sum of the mapped list. -/
theorem foldl_add_map_sum {α : Type} (f : α → ℚ) :
    ∀ (l : List α) (init : ℚ),
      l.foldl (fun total x => total + f x) init = init + (l.map f).sum
  | [], init => by simp
  | x :: rest, init => by
    rw [List.foldl_cons, foldl_add_map_sum f rest, List.map_cons, List.sum_cons]
    ring

/-- Claim C1: `calculateNRR` returns `0` when `startMRR` is `0` and
otherwise `((startMRR + expansionMRR - contractionMRR - churnedMRR) / startMRR) * 100`
with absent optional fields defaulting to `0`; the `newMRR` field never
influences the result. -/
theorem calculateNRR_spec (input : NRRInput) :
    (input.startMRR = 0 → calculateNRR input = 0) ∧
    (input.startMRR ≠ 0 →
      calculateNRR input =
        (input.startMRR + input.expansionMRR.getD 0 - input.contractionMRR.getD 0 -
          input.churnedMRR) / input.startMRR * 100) ∧
    (∀ input2 : NRRInput, input.startMRR = input2.startMRR →
      input.expansionMRR = input2.expansionMRR →
      input.contractionMRR = input2.contractionMRR →
      input.churnedMRR = input2.churnedMRR →
      calculateNRR input = calculateNRR input2) := by
  refine ⟨fun h => by simp [calculateNRR, h], fun h => by simp [calculateNRR, h], ?_⟩
  intro input2 h1 h2 h3 h4
  simp [calculateNRR, h1, h2, h3, h4]

/-- Witness for claim C1 at concrete inputs. -/
theorem calculateNRR_spec_witness :
    calculateNRR ⟨10000, none, some 1000, some 200, 300⟩ = 105 ∧
    calculateNRR ⟨0, none, none, none, 300⟩ = 0 ∧
    calculateNRR ⟨10000, some 999, some 1000, some 200, 300⟩ =
      calculateNRR ⟨10000, none, some 1000, some 200, 300⟩ := by
  refine ⟨?_, (calculateNRR_spec _).1 rfl,
    (calculateNRR_spec ⟨10000, some 999, some 1000, some 200, 300⟩).2.2
      ⟨10000, none, some 1000, some 200, 300⟩ rfl rfl rfl rfl⟩
  have h := (calculateNRR_spec ⟨10000, none, some 1000, some 200, 300⟩).2.1 (by norm_num)
  rw [h]; norm_num

/-- Claim C4: the zero-denominator policy is asymmetric — the churn-rate
functions return `0` on a zero denominator, while `calculateARPU` is
unguarded and yields `Infinity` for positive sales over zero users and
`NaN` for zero sales over zero users. -/
theorem zeroDenominatorPolicy_spec :
    (∀ churned : ℚ, calculateCustomerChurnRate ⟨0, churned⟩ = 0) ∧
    (∀ churned contraction, calculateRevenueChurnRate ⟨0, churned, contraction⟩ = 0) ∧
    (∀ sales : ℚ, 0 < sales → calculateARPU sales 0 = JSVal.posInf) ∧
    calculateARPU 0 0 = JSVal.nan := by
  refine ⟨fun churned => by simp [calculateCustomerChurnRate],
    fun churned contraction => by simp [calculateRevenueChurnRate],
    fun sales hs => by simp [calculateARPU, jsDiv, hs],
    by simp [calculateARPU, jsDiv]⟩

/-- Witness for claim C4 at concrete inputs. -/
theorem zeroDenominatorPolicy_spec_witness :
    (0:ℚ) < 5 ∧ calculateARPU 5 0 = JSVal.posInf ∧
    calculateCustomerChurnRate ⟨0, 5⟩ = 0 ∧
    calculateRevenueChurnRate ⟨0, 500, some 200⟩ = 0 :=
  ⟨by norm_num, zeroDenominatorPolicy_spec.2.2.1 5 (by norm_num),
    zeroDenominatorPolicy_spec.1 5, zeroDenominatorPolicy_spec.2.1 500 (some 200)⟩

/-- Claim C5: `calculateMRR` is the sum over the subscription list of the
per-interval monthly-equivalent contribution, with unknown interval tags
contributing `0`. -/
theorem calculateMRR_spec (subscriptions : List Subscription) :
    calculateMRR subscriptions = (subscriptions.map specMonthlyContribution).sum := by
  have hfun : (fun (total : ℚ) (sub : Subscription) =>
      match sub.interval with
      | SubscriptionInterval.month => total + sub.amount
      | SubscriptionInterval.year => total + sub.amount / MONTHS_PER_YEAR
      | SubscriptionInterval.week => total + sub.amount * WEEKS_PER_YEAR / MONTHS_PER_YEAR
      | SubscriptionInterval.day => total + sub.amount * DAYS_PER_YEAR / MONTHS_PER_YEAR
      | SubscriptionInterval.other _ => total) =
      fun (total : ℚ) (sub : Subscription) => total + specMonthlyContribution sub := by
    funext total sub
    cases h : sub.interval <;>
      simp [specMonthlyContribution, h, MONTHS_PER_YEAR, WEEKS_PER_YEAR, DAYS_PER_YEAR]
  rw [calculateMRR, hfun, foldl_add_map_sum, zero_add]

/-- Claim C7: `calculateARR` is `calculateMRR` times `12`. -/
theorem calculateARR_spec (subscriptions : List Subscription) :
    calculateARR subscriptions = calculateMRR subscriptions * 12 := rfl

/-- Claim C6: `calculateAverageDuration` returns the reciprocal of the
churn rate read as a percentage (or as a plain number for the `number`
unit), defaults the unit to percentage when it is omitted, and returns
`Infinity` at churn rate `0` with the percentage unit. -/
theorem calculateAverageDuration_spec :
    (∀ churnRate : ℚ, churnRate ≠ 0 →
      calculateAverageDuration churnRate (some NumberType.percentage) =
        JSVal.num (1 / (churnRate / 100)) ∧
      calculateAverageDuration churnRate (some NumberType.number) =
        JSVal.num (1 / churnRate)) ∧
    (∀ churnRate : ℚ,
      calculateAverageDuration churnRate none =
        calculateAverageDuration churnRate (some NumberType.percentage)) ∧
    calculateAverageDuration 0 (some NumberType.percentage) = JSVal.posInf := by
  refine ⟨fun churnRate hq => ⟨?_, ?_⟩, fun churnRate => rfl, ?_⟩
  · rw [calculateAverageDuration]
    simp only [Option.getD_some]
    rw [jsDiv, if_neg (by simpa using hq)]
  · rw [calculateAverageDuration]
    simp only [Option.getD_some]
    rw [jsDiv, if_neg hq]
  · norm_num [calculateAverageDuration, jsDiv]

/-- Witness for claim C6 at concrete inputs. -/
theorem calculateAverageDuration_spec_witness :
    calculateAverageDuration 10 (some NumberType.percentage) = JSVal.num 10 ∧
    calculateAverageDuration (1/10) (some NumberType.number) = JSVal.num 10 := by
  constructor
  · have h := (calculateAverageDuration_spec.1 10 (by norm_num)).1
    rw [h]; norm_num
  · have h := (calculateAverageDuration_spec.1 (1/10) (by norm_num)).2
    rw [h]; norm_num

/-- Claim C8: `calculateHistoricalLTV` returns `0` on the empty list and
the arithmetic mean (sum over length) on a non-empty list. -/
theorem calculateHistoricalLTV_spec :
    calculateHistoricalLTV [] = 0 ∧
    ∀ customerRevenues : List ℚ, customerRevenues ≠ [] →
      calculateHistoricalLTV customerRevenues =
        customerRevenues.sum / customerRevenues.length := by
  refine ⟨rfl, fun l hl => ?_⟩
  rw [calculateHistoricalLTV, if_neg (by simpa using hl), List.sum_eq_foldl]

/-- Witness for claim C8 at a concrete input. -/
theorem calculateHistoricalLTV_spec_witness :
    calculateHistoricalLTV [1000, 1200, 1500, 800, 2000] = 1300 := by
  have h := calculateHistoricalLTV_spec.2 [1000, 1200, 1500, 800, 2000] (by simp)
  rw [h]; norm_num

/-- Claim C9: for `startMRR ≠ 0`, `calculateGRR` equals `100` minus the
revenue churn rate built from the same `startMRR`, `churnedMRR` and
`contractionMRR`; at `startMRR = 0` both functions return `0`, so the
identity fails there. -/
theorem calculateGRR_spec (input : NRRInput) :
    (input.startMRR ≠ 0 →
      calculateGRR input =
        100 - calculateRevenueChurnRate
          ⟨input.startMRR, input.churnedMRR, input.contractionMRR⟩) ∧
    (input.startMRR = 0 →
      calculateGRR input = 0 ∧
      calculateRevenueChurnRate
        ⟨input.startMRR, input.churnedMRR, input.contractionMRR⟩ = 0 ∧
      calculateGRR input ≠
        100 - calculateRevenueChurnRate
          ⟨input.startMRR, input.churnedMRR, input.contractionMRR⟩) := by
  constructor
  · intro h
    simp only [calculateGRR, calculateRevenueChurnRate, if_neg h]
    field_simp
    ring
  · intro h
    refine ⟨by simp [calculateGRR, h], by simp [calculateRevenueChurnRate, h], ?_⟩
    simp [calculateGRR, calculateRevenueChurnRate, h]

/-- Witness for claim C9 at concrete inputs. -/
theorem calculateGRR_spec_witness :
    calculateGRR ⟨10000, none, none, some 200, 300⟩ = 95 ∧
    calculateGRR ⟨0, none, none, none, 300⟩ = 0 ∧
    calculateRevenueChurnRate ⟨0, 300, none⟩ = 0 := by
  refine ⟨?_, ((calculateGRR_spec ⟨0, none, none, none, 300⟩).2 rfl).1,
    ((calculateGRR_spec ⟨0, none, none, none, 300⟩).2 rfl).2.1⟩
  have h := (calculateGRR_spec ⟨10000, none, none, some 200, 300⟩).1 (by norm_num)
  rw [h]; norm_num [calculateRevenueChurnRate]

end LTVCalc
namespace LTVCalc

/-- A list sorted under the non-strict month order whose month values are
pairwise distinct is sorted under the strict month order. -/
theorem sorted_cohortLT_of_sorted_cohortLE (l : List CohortDataPoint)
    (hs : List.Sorted cohortLE l) (hn : (l.map CohortDataPoint.month).Nodup) :
    List.Sorted cohortLT l := by
  have hne : l.Pairwise fun a b => a.month ≠ b.month := List.pairwise_map.mp hn
  exact (hs.and hne).imp fun hab => lt_of_le_of_ne hab.1 hab.2

/-- Two permuted cohort lists with pairwise-distinct months have the same
stable sort by month. -/
theorem insertionSort_eq_of_perm_of_monthNodup (l₁ l₂ : List CohortDataPoint)
    (hperm : l₁.Perm l₂) (hnodup : (l₁.map CohortDataPoint.month).Nodup) :
    List.insertionSort cohortLE l₁ = List.insertionSort cohortLE l₂ := by
  have hp₁ := List.perm_insertionSort cohortLE l₁
  have hp₂ := List.perm_insertionSort cohortLE l₂
  have hps : (List.insertionSort cohortLE l₁).Perm (List.insertionSort cohortLE l₂) :=
    hp₁.trans (hperm.trans hp₂.symm)
  have hn₁ : ((List.insertionSort cohortLE l₁).map CohortDataPoint.month).Nodup :=
    ((hp₁.map CohortDataPoint.month).nodup_iff).mpr hnodup
  have hn₂ : ((List.insertionSort cohortLE l₂).map CohortDataPoint.month).Nodup :=
    ((hps.map CohortDataPoint.month).nodup_iff).mp hn₁
  exact List.eq_of_perm_of_sorted hps
    (sorted_cohortLT_of_sorted_cohortLE _ (List.sorted_insertionSort _ _) hn₁)
    (sorted_cohortLT_of_sorted_cohortLE _ (List.sorted_insertionSort _ _) hn₂)

/-- Claim C2 (amended): `calculateCohortRetention` gives the same output on
any two permuted inputs provided the month values are pairwise distinct. -/
theorem cohortRetention_perm_spec (l₁ l₂ : List CohortDataPoint)
    (hperm : l₁.Perm l₂) (hnodup : (l₁.map CohortDataPoint.month).Nodup) :
    calculateCohortRetention l₁ = calculateCohortRetention l₂ := by
  have hsort := insertionSort_eq_of_perm_of_monthNodup l₁ l₂ hperm hnodup
  have hlen := hperm.length_eq
  unfold calculateCohortRetention
  rw [hlen, hsort]

/-- Witness for claim C2 (amended) at concrete inputs. -/
theorem cohortRetention_perm_spec_witness :
    List.Perm [(⟨2, 85⟩ : CohortDataPoint), ⟨0, 100⟩, ⟨1, 90⟩] [⟨0, 100⟩, ⟨1, 90⟩, ⟨2, 85⟩] ∧
    (([(⟨2, 85⟩ : CohortDataPoint), ⟨0, 100⟩, ⟨1, 90⟩]).map CohortDataPoint.month).Nodup ∧
    calculateCohortRetention [(⟨2, 85⟩ : CohortDataPoint), ⟨0, 100⟩, ⟨1, 90⟩] =
      calculateCohortRetention [⟨0, 100⟩, ⟨1, 90⟩, ⟨2, 85⟩] :=
  ⟨by decide, by decide, cohortRetention_perm_spec _ _ (by decide) (by decide)⟩

/-- Counterexample to claim C2 as stated: two permuted inputs that share a
month value give different outputs, because the stable sort keeps ties in
input order and the base cohort therefore changes. -/
theorem cohortRetention_perm_counterexample :
    List.Perm [(⟨0, 50⟩ : CohortDataPoint), ⟨0, 100⟩] [⟨0, 100⟩, ⟨0, 50⟩] ∧
    calculateCohortRetention [(⟨0, 50⟩ : CohortDataPoint), ⟨0, 100⟩] ≠
      calculateCohortRetention [⟨0, 100⟩, ⟨0, 50⟩] := by
  constructor
  · decide
  · norm_num [calculateCohortRetention, List.insertionSort, List.orderedInsert, cohortLE,
      List.headI]

/-- Claim C3: `calculateCohortRetention` returns `[]` on empty input; on
non-empty input it stable-sorts by month, takes the first sorted cohort's
customers as base, returns input-length-many zeros when the base is `0`,
and otherwise maps each sorted cohort to `(customers / base) * 100` in
sorted order. -/
theorem calculateCohortRetention_spec (cohorts : List CohortDataPoint) :
    (cohorts = [] → calculateCohortRetention cohorts = []) ∧
    (cohorts ≠ [] → (List.insertionSort cohortLE cohorts).headI.customers = 0 →
      calculateCohortRetention cohorts = List.replicate cohorts.length 0) ∧
    (cohorts ≠ [] → (List.insertionSort cohortLE cohorts).headI.customers ≠ 0 →
      calculateCohortRetention cohorts =
        (List.insertionSort cohortLE cohorts).map fun cohort =>
          cohort.customers / (List.insertionSort cohortLE cohorts).headI.customers * 100) := by
  refine ⟨fun h => by simp [calculateCohortRetention, h], fun hne h0 => ?_, fun hne h0 => ?_⟩
  · rw [calculateCohortRetention, if_neg (by simpa using hne)]
    simp only [h0, if_true, List.map_const', List.length_insertionSort]
  · rw [calculateCohortRetention, if_neg (by simpa using hne)]
    simp only [if_neg h0]

/-- Witness for claim C3 at concrete inputs. -/
theorem calculateCohortRetention_spec_witness :
    calculateCohortRetention [] = [] ∧
    calculateCohortRetention [(⟨0, 0⟩ : CohortDataPoint), ⟨1, 0⟩] = [0, 0] ∧
    calculateCohortRetention [(⟨0, 100⟩ : CohortDataPoint), ⟨1, 90⟩, ⟨2, 85⟩] = [100, 90, 85] := by
  refine ⟨(calculateCohortRetention_spec []).1 rfl, ?_, ?_⟩
  · have h := (calculateCohortRetention_spec [(⟨0, 0⟩ : CohortDataPoint), ⟨1, 0⟩]).2.1
      (by decide) (by decide)
    rw [h]; decide
  · have h := (calculateCohortRetention_spec [(⟨0, 100⟩ : CohortDataPoint), ⟨1, 90⟩, ⟨2, 85⟩]).2.2
      (by decide) (by decide)
    rw [h]
    norm_num [List.insertionSort, List.orderedInsert, cohortLE, List.headI]

/-- Claim C10: on a non-empty input whose earliest sorted cohort has
non-zero customers, `calculateCohortRetention` preserves the input length
and its first output value is exactly `100`. -/
theorem cohortRetention_head_spec (cohorts : List CohortDataPoint)
    (hne : cohorts ≠ [])
    (hbase : (List.insertionSort cohortLE cohorts).headI.customers ≠ 0) :
    (calculateCohortRetention cohorts).length = cohorts.length ∧
    (calculateCohortRetention cohorts).headI = 100 := by
  rw [calculateCohortRetention, if_neg (by simpa using hne)]
  simp only [if_neg hbase]
  have hsne : List.insertionSort cohortLE cohorts ≠ [] := by
    intro h
    apply hne
    have hp := List.perm_insertionSort cohortLE cohorts
    rw [h] at hp
    exact hp.nil_eq.symm
  obtain ⟨a, t, hs⟩ := List.exists_cons_of_ne_nil hsne
  constructor
  · rw [List.length_map, List.length_insertionSort]
  · rw [hs]
    simp only [List.map_cons, List.headI_cons]
    rw [hs] at hbase
    simp only [List.headI_cons] at hbase ⊢
    rw [div_self hbase, one_mul]

/-- Witness for claim C10 at a concrete input. -/
theorem cohortRetention_head_spec_witness :
    ([(⟨0, 100⟩ : CohortDataPoint), ⟨1, 90⟩] : List CohortDataPoint) ≠ [] ∧
    (List.insertionSort cohortLE [(⟨0, 100⟩ : CohortDataPoint), ⟨1, 90⟩]).headI.customers ≠ 0 ∧
    (calculateCohortRetention [(⟨0, 100⟩ : CohortDataPoint), ⟨1, 90⟩]).length = 2 ∧
    (calculateCohortRetention [(⟨0, 100⟩ : CohortDataPoint), ⟨1, 90⟩]).headI = 100 := by
  have h := cohortRetention_head_spec [(⟨0, 100⟩ : CohortDataPoint), ⟨1, 90⟩]
    (by decide) (by decide)
  exact ⟨by decide, by decide, h.1, h.2⟩

end LTVCalc
